import Mathlib

/-!
Verification of the gsuite-mcp server (`src/main.py`).

The Python module is shallowly embedded: JSON-like Python values become the
inductive type `JVal`; Python dictionary access, truthiness and iteration
become total Lean functions returning `Except String _` where Python would
raise (the error string abstracts the exception text); the Gmail and Calendar
API clients become records of fallible functions, so every tool handler is a
pure function of the service record and its parameters.
-/

set_option maxRecDepth 4096

/-- A JSON-like Python value: `None`, strings, integers, booleans, lists and
dictionaries (association lists in insertion order, keys unique). -/
inductive JVal where
  | null : JVal
  | str (s : String) : JVal
  | num (n : Int) : JVal
  | bool (b : Bool) : JVal
  | arr (xs : List JVal) : JVal
  | obj (fs : List (String × JVal)) : JVal
deriving Inhabited

/-- Python truthiness of a value (`bool(v)`). -/
def truthy : JVal → Bool
  | .null => false
  | .str s => !(s == "")
  | .num n => !(n == 0)
  | .bool b => b
  | .arr xs => !xs.isEmpty
  | .obj fs => !fs.isEmpty

/-- First binding of a key in a dictionary's field list. -/
def lookupField : List (String × JVal) → String → Option JVal
  | [], _ => none
  | (k, v) :: rest, key => if k == key then some v else lookupField rest key

/-- Field list of a dictionary value (`[]` for non-dictionaries). -/
def objFields : JVal → List (String × JVal)
  | .obj fs => fs
  | _ => []

/-- Subscript access `d[k]` on a Python value: `KeyError` when the key is missing,
`TypeError` when the value is not a dictionary. -/
def pyIndex (v : JVal) (k : String) : Except String JVal :=
  match v with
  | .obj fs =>
    match lookupField fs k with
    | some x => .ok x
    | none => .error ("KeyError: " ++ k)
  | _ => .error "TypeError: value is not subscriptable by a string"

/-- Method `d.get(k)` on a Python value: `None` when the key is missing,
`AttributeError` when the value is not a dictionary. -/
def pyGet (v : JVal) (k : String) : Except String JVal :=
  match v with
  | .obj fs => .ok ((lookupField fs k).getD .null)
  | _ => .error "AttributeError: value has no attribute get"

/-- Method `d.get(k, default)` on a Python value. -/
def pyGetD (v : JVal) (k : String) (d : JVal) : Except String JVal :=
  match v with
  | .obj fs => .ok ((lookupField fs k).getD d)
  | _ => .error "AttributeError: value has no attribute get"

/-- Iteration `for x in v`: lists yield their elements, strings their one-character
strings, dictionaries their keys; other values raise `TypeError`. -/
def pyIter : JVal → Except String (List JVal)
  | .arr xs => .ok xs
  | .str s => .ok (s.data.map fun c => .str (String.mk [c]))
  | .obj fs => .ok (fs.map fun f => .str f.1)
  | _ => .error "TypeError: value is not iterable"

/-- Python `v == s` for a string literal `s`: true only when `v` is that
string (comparisons across types are `False` in Python). -/
def jEqStr (v : JVal) (s : String) : Bool :=
  match v with
  | .str t => t == s
  | _ => false

/-- Total dictionary lookup used on the specification side:
missing key or non-dictionary gives `null`. -/
def jLook (v : JVal) (k : String) : JVal :=
  match v with
  | .obj fs => (lookupField fs k).getD .null
  | _ => .null

/-- Total dictionary lookup with a default, specification side. -/
def jLookD (v : JVal) (k : String) (d : JVal) : JVal :=
  match v with
  | .obj fs => (lookupField fs k).getD d
  | _ => d

/-- Is the value a dictionary? -/
def isObjB : JVal → Bool
  | .obj _ => true
  | _ => false

/-- Does the dictionary value bind the key? -/
def hasKey (v : JVal) (k : String) : Bool :=
  (lookupField (objFields v) k).isSome

/-- Truthiness of an optional string parameter (Python default `None`). -/
def optStrTruthy : Option String → Bool
  | none => false
  | some s => !(s == "")

/-- Truthiness of an optional string-list parameter (Python default `None`). -/
def optListTruthy : Option (List String) → Bool
  | none => false
  | some l => !l.isEmpty

/-! ### URL-safe base64 (`base64.urlsafe_b64encode` / `urlsafe_b64decode`) -/

/-- Character of the URL-safe base64 alphabet at an index below 64. -/
def b64Char (n : Nat) : Char :=
  if n < 26 then Char.ofNat (65 + n)
  else if n < 52 then Char.ofNat (97 + (n - 26))
  else if n < 62 then Char.ofNat (48 + (n - 52))
  else if n == 62 then Char.ofNat 45
  else Char.ofNat 95

/-- Index of a character in the URL-safe base64 alphabet. -/
def b64Val (c : Char) : Option Nat :=
  let n := c.toNat
  if 65 ≤ n && n ≤ 90 then some (n - 65)
  else if 97 ≤ n && n ≤ 122 then some (26 + (n - 97))
  else if 48 ≤ n && n ≤ 57 then some (52 + (n - 48))
  else if n == 45 then some 62
  else if n == 95 then some 63
  else none

/-- URL-safe base64 encoding of a byte list, with `=` padding, as
`base64.urlsafe_b64encode` produces. -/
def b64EncodeChunks : List Nat → List Char
  | [] => []
  | [b1] => [b64Char (b1 / 4), b64Char (b1 % 4 * 16), Char.ofNat 61, Char.ofNat 61]
  | [b1, b2] =>
    [b64Char (b1 / 4), b64Char (b1 % 4 * 16 + b2 / 16), b64Char (b2 % 16 * 4), Char.ofNat 61]
  | b1 :: b2 :: b3 :: rest =>
    b64Char (b1 / 4) :: b64Char (b1 % 4 * 16 + b2 / 16) ::
      b64Char (b2 % 16 * 4 + b3 / 64) :: b64Char (b3 % 64) :: b64EncodeChunks rest

/-- The same encoding with the trailing `=` padding already absent. -/
def b64EncNoPad : List Nat → List Char
  | [] => []
  | [b1] => [b64Char (b1 / 4), b64Char (b1 % 4 * 16)]
  | [b1, b2] => [b64Char (b1 / 4), b64Char (b1 % 4 * 16 + b2 / 16), b64Char (b2 % 16 * 4)]
  | b1 :: b2 :: b3 :: rest =>
    b64Char (b1 / 4) :: b64Char (b1 % 4 * 16 + b2 / 16) ::
      b64Char (b2 % 16 * 4 + b3 / 64) :: b64Char (b3 % 64) :: b64EncNoPad rest

/-- Decoding of an unpadded URL-safe base64 character list (the padding is
stripped beforehand by `b64urlDecodeStr`). -/
def b64DecodeChunks : List Char → Option (List Nat)
  | [] => some []
  | [c1, c2] =>
    match b64Val c1, b64Val c2 with
    | some v1, some v2 => some [v1 * 4 + v2 / 16]
    | _, _ => none
  | [c1, c2, c3] =>
    match b64Val c1, b64Val c2, b64Val c3 with
    | some v1, some v2, some v3 => some [v1 * 4 + v2 / 16, v2 % 16 * 16 + v3 / 4]
    | _, _, _ => none
  | c1 :: c2 :: c3 :: c4 :: rest =>
    match b64Val c1, b64Val c2, b64Val c3, b64Val c4, b64DecodeChunks rest with
    | some v1, some v2, some v3, some v4, some ds =>
      some ((v1 * 4 + v2 / 16) :: (v2 % 16 * 16 + v3 / 4) :: (v3 % 4 * 64 + v4) :: ds)
    | _, _, _, _, _ => none
  | [_] => none

/-- Remove the trailing run of `=` characters (`str.rstrip("=")`). -/
def rstripEq (cs : List Char) : List Char :=
  ((cs.reverse.dropWhile fun c => c == Char.ofNat 61).reverse)

/-- Function `base64.urlsafe_b64decode` on a string, modelled for standard padded or
unpadded base64url input (trailing padding is ignored; any other malformed
input is a decoding error, as Python raises `binascii.Error`). -/
def b64urlDecodeStr (s : String) : Option (List Nat) :=
  b64DecodeChunks (rstripEq s.data)

/-! ### UTF-8 (`str.encode()` / `bytes.decode("utf-8")`) -/

/-- UTF-8 encoding of a single character, as a list of byte values. -/
def utf8EncodeCharNat (c : Char) : List Nat :=
  let v := c.toNat
  if v < 128 then [v]
  else if v < 2048 then [192 + v / 64, 128 + v % 64]
  else if v < 65536 then [224 + v / 4096, 128 + v / 64 % 64, 128 + v % 64]
  else [240 + v / 262144, 128 + v / 4096 % 64, 128 + v / 64 % 64, 128 + v % 64]

/-- UTF-8 encoding of a string (`str.encode()`), as a list of byte values. -/
def utf8Str (s : String) : List Nat :=
  s.data.flatMap utf8EncodeCharNat

/-- Strict UTF-8 decoding of a byte list into characters: rejects
continuation errors, overlong forms, surrogates and out-of-range points,
as Python's `bytes.decode("utf-8")` raises `UnicodeDecodeError`. -/
def utf8DecodeList : List Nat → Option (List Char)
  | [] => some []
  | b :: rest =>
    if b < 128 then
      match utf8DecodeList rest with
      | some cs => some (Char.ofNat b :: cs)
      | none => none
    else if b < 194 then none
    else if b < 224 then
      match rest with
      | b2 :: r2 =>
        if 128 ≤ b2 && b2 < 192 then
          match utf8DecodeList r2 with
          | some cs => some (Char.ofNat ((b - 192) * 64 + (b2 - 128)) :: cs)
          | none => none
        else none
      | [] => none
    else if b < 240 then
      match rest with
      | b2 :: b3 :: r3 =>
        if (128 ≤ b2 && b2 < 192) && (128 ≤ b3 && b3 < 192) then
          let v := (b - 224) * 4096 + (b2 - 128) * 64 + (b3 - 128)
          if v < 2048 || (55296 ≤ v && v < 57344) then none
          else
            match utf8DecodeList r3 with
            | some cs => some (Char.ofNat v :: cs)
            | none => none
        else none
      | _ => none
    else if b < 245 then
      match rest with
      | b2 :: b3 :: b4 :: r4 =>
        if ((128 ≤ b2 && b2 < 192) && (128 ≤ b3 && b3 < 192)) && (128 ≤ b4 && b4 < 192) then
          let v := (b - 240) * 262144 + (b2 - 128) * 4096 + (b3 - 128) * 64 + (b4 - 128)
          if v < 65536 || 1114112 ≤ v then none
          else
            match utf8DecodeList r4 with
            | some cs => some (Char.ofNat v :: cs)
            | none => none
        else none
      | _ => none
    else none

/-- Strict UTF-8 decoding of a byte list into a string. -/
def utf8Decode (bs : List Nat) : Option String :=
  (utf8DecodeList bs).map String.mk

/-- Composition `base64.urlsafe_b64decode(v).decode("utf-8")` on a Python value:
`TypeError` for non-strings, decoding errors for malformed input. -/
def jB64DecodeUtf8 (v : JVal) : Except String String :=
  match v with
  | .str s =>
    match b64urlDecodeStr s with
    | some bs =>
      match utf8Decode bs with
      | some t => .ok t
      | none => .error "UnicodeDecodeError: invalid utf-8"
    | none => .error "binascii.Error: invalid base64"
  | _ => .error "TypeError: argument should be a bytes-like object or ASCII string"

/-! ### `get_email_body` (src/main.py lines 50-63) -/

/-- The `for part in payload["parts"]` loop of `get_email_body`: the first
part whose `mimeType` equals `text/plain` and whose `body.data` is truthy is
decoded; falling through the loop yields the sentinel. -/
def scanParts : List JVal → Except String String
  | [] => .ok "(No body content)"
  | part :: rest =>
    match pyGet part "mimeType" with
    | .error e => .error e
    | .ok mt =>
      if jEqStr mt "text/plain" then
        match pyGetD part "body" (.obj []) with
        | .error e => .error e
        | .ok bodyv =>
          match pyGet bodyv "data" with
          | .error e => .error e
          | .ok datav =>
            if truthy datav then jB64DecodeUtf8 datav
            else scanParts rest
      else scanParts rest

/-- The fall-through of `get_email_body` past the inline-body test: loop
over a truthy `payload.get("parts")`, else return the sentinel. -/
def partsFallback (payload : JVal) : Except String String :=
  match pyGet payload "parts" with
  | .error e => .error e
  | .ok partsv =>
    if truthy partsv then
      match partsv with
      | .arr parts => scanParts parts
      | _ => .error "TypeError: value is not iterable"
    else .ok "(No body content)"

/-- Handler helper `get_email_body(payload)`: empty payload gives `""`; a truthy top-level
`body.data` is decoded; otherwise the parts are scanned one level deep;
otherwise the sentinel `"(No body content)"` is returned. -/
def get_email_body (payload : JVal) : Except String String :=
  if truthy payload = false then .ok ""
  else
    match pyGet payload "body" with
    | .error e => .error e
    | .ok bodyv =>
      if truthy bodyv then
        match pyGet bodyv "data" with
        | .error e => .error e
        | .ok datav =>
          if truthy datav then jB64DecodeUtf8 datav
          else partsFallback payload
      else partsFallback payload

/-! ### Pretty-printing helpers (`json.dumps`, `str()` interpolation)

`json.dumps(..., indent=2)` is modelled by a structurally faithful serializer
whose whitespace and string escaping are abstracted: no claim inspects the
serialized text, only the record sequence that is serialized. -/

mutual

/-- JSON serialization of a value (whitespace/escaping abstracted). -/
def jsonDumps : JVal → String
  | .null => "null"
  | .str s => "\"" ++ s ++ "\""
  | .num n => toString n
  | .bool b => if b then "true" else "false"
  | .arr xs => "[" ++ jsonDumpsList xs ++ "]"
  | .obj fs => "\x7b" ++ jsonDumpsFields fs ++ "\x7d"

/-- Serialization of the elements of a JSON array. -/
def jsonDumpsList : List JVal → String
  | [] => ""
  | [x] => jsonDumps x
  | x :: rest => jsonDumps x ++ ", " ++ jsonDumpsList rest

/-- Serialization of the fields of a JSON object. -/
def jsonDumpsFields : List (String × JVal) → String
  | [] => ""
  | [(k, v)] => "\"" ++ k ++ "\": " ++ jsonDumps v
  | (k, v) :: rest => "\"" ++ k ++ "\": " ++ jsonDumps v ++ ", " ++ jsonDumpsFields rest

end

/-- Python `str(v)` as used inside f-strings (`repr` of containers
abstracted by the JSON form). -/
def pyStr : JVal → String
  | .str s => s
  | .null => "None"
  | .bool b => if b then "True" else "False"
  | .num n => toString n
  | v => jsonDumps v

/-! ### Remote services

The Gmail and Calendar API clients are records of fallible functions; an
`Except.error e` models the remote call raising an exception whose `str()`
is `e`. -/

/-- The Gmail service surface used by the handlers. -/
structure GmailService where
  messagesList : Int → String → Except String JVal
  messagesGet : JVal → Except String JVal
  messagesSend : String → Except String JVal
  messagesModify : String → List String → List String → Except String JVal

/-- The Calendar service surface used by the handlers. -/
structure CalendarService where
  eventsList : JVal → Except String JVal
  eventsInsert : JVal → Except String JVal
  eventsPatch : String → JVal → Except String JVal
  eventsDelete : String → Except String JVal

/-! ### `list_emails` and `search_emails` (src/main.py lines 65-140) -/

/-- The header generator
`next((h["value"] for h in headers if h["name"] == name), "")`:
scan the headers in order, return the `value` of the first one whose `name`
matches, defaulting to `""`. -/
def nextHeader : List JVal → String → Except String JVal
  | [], _ => .ok (.str "")
  | h :: rest, nm =>
    match pyIndex h "name" with
    | .error e => .error e
    | .ok n =>
      if jEqStr n nm then pyIndex h "value"
      else nextHeader rest nm

/-- The per-message loop body of `list_emails`: fetch each message's detail
and build its flat record, preserving order. -/
def buildEmailRecords (g : GmailService) : List JVal → Except String (List JVal)
  | [] => .ok []
  | msg :: rest => do
    let idv ← pyIndex msg "id"
    let detail ← g.messagesGet idv
    let payload ← pyIndex detail "payload"
    let headersv ← pyGetD payload "headers" (.arr [])
    let headers ← pyIter headersv
    let subject ← nextHeader headers "Subject"
    let fromv ← nextHeader headers "From"
    let datev ← nextHeader headers "Date"
    let body ← get_email_body payload
    let recs ← buildEmailRecords g rest
    return .obj [("id", idv), ("subject", subject), ("from", fromv),
                 ("date", datev), ("body", .str body)] :: recs

/-- Tool `list_emails(maxResults, query)`. -/
def list_emails (g : GmailService) (maxResults : Int) (query : String) : String :=
  match (do
    let response ← g.messagesList maxResults query
    let messagesv ← pyGetD response "messages" (.arr [])
    let messages ← pyIter messagesv
    buildEmailRecords g messages : Except String (List JVal)) with
  | .ok records => jsonDumps (.arr records)
  | .error e => "Error fetching emails: " ++ e

/-- The per-message loop body of `search_emails`: as in `list_emails`, with
the additional `labels` field from `detail.get("labelIds", [])`. -/
def buildSearchRecords (g : GmailService) : List JVal → Except String (List JVal)
  | [] => .ok []
  | msg :: rest => do
    let idv ← pyIndex msg "id"
    let detail ← g.messagesGet idv
    let payload ← pyIndex detail "payload"
    let headersv ← pyGetD payload "headers" (.arr [])
    let headers ← pyIter headersv
    let subject ← nextHeader headers "Subject"
    let fromv ← nextHeader headers "From"
    let datev ← nextHeader headers "Date"
    let body ← get_email_body payload
    let labels ← pyGetD detail "labelIds" (.arr [])
    let recs ← buildSearchRecords g rest
    return .obj [("id", idv), ("subject", subject), ("from", fromv),
                 ("date", datev), ("body", .str body), ("labels", labels)] :: recs

/-- Tool `search_emails(query, maxResults)`. -/
def search_emails (g : GmailService) (query : String) (maxResults : Int) : String :=
  match (do
    let response ← g.messagesList maxResults query
    let messagesv ← pyGetD response "messages" (.arr [])
    let messages ← pyIter messagesv
    buildSearchRecords g messages : Except String (List JVal)) with
  | .ok records => jsonDumps (.arr records)
  | .error e => "Error fetching emails: " ++ e

/-! ### `send_email` (src/main.py lines 142-172) -/

/-- The composed RFC-2822-style message: the header list is built in order
(`Content-Type`, `MIME-Version`, `To`, then `Cc`/`Bcc` when truthy, then
`Subject`), joined with CRLF, and followed by a blank line and the body. -/
def composeEmail (toAddr subject bodyStr : String) (cc bcc : Option String) : String :=
  let headers := ["Content-Type: text/plain; charset=\"UTF-8\"",
                  "MIME-Version: 1.0",
                  "To: " ++ toAddr]
  let headers := headers ++
    (match cc with
     | some c => if c == "" then [] else ["Cc: " ++ c]
     | none => [])
  let headers := headers ++
    (match bcc with
     | some b => if b == "" then [] else ["Bcc: " ++ b]
     | none => [])
  let headers := headers ++ ["Subject: " ++ subject]
  String.intercalate "\r\n" headers ++ "\r\n\r\n" ++ bodyStr

/-- Encoding `base64.urlsafe_b64encode(email.encode()).decode().rstrip("=")`:
the raw payload sent to the Gmail API. -/
def sendEmailRaw (toAddr subject bodyStr : String) (cc bcc : Option String) : String :=
  String.mk (rstripEq (b64EncodeChunks (utf8Str (composeEmail toAddr subject bodyStr cc bcc))))

/-- Tool `send_email(to, subject, body, cc, bcc)`. -/
def send_email (g : GmailService) (toAddr subject bodyStr : String)
    (cc bcc : Option String) : String :=
  match (do
    let response ← g.messagesSend (sendEmailRaw toAddr subject bodyStr cc bcc)
    let idv ← pyIndex response "id"
    return "Email sent successfully. Message ID: " ++ pyStr idv : Except String String) with
  | .ok s => s
  | .error e => "Error sending email: " ++ e

/-! ### `modify_email` (src/main.py lines 174-193) -/

/-- Tool `modify_email(id, addLabels, removeLabels)`; `addLabels or []` defaults
a falsy argument to the empty list. -/
def modify_email (g : GmailService) (id : String)
    (addLabels removeLabels : Option (List String)) : String :=
  let addL := (addLabels.getD []); let remL := (removeLabels.getD [])
  match (do
    let response ← g.messagesModify id addL remL
    let idv ← pyIndex response "id"
    return "Email modified successfully. Updated labels for message ID: " ++ pyStr idv
      : Except String String) with
  | .ok s => s
  | .error e => "Error modifying email: " ++ e

/-! ### `list_events` (src/main.py lines 195-228) -/

/-- The per-event loop of `list_events`: each event's record takes `id` by
subscript and the optional fields via `.get`, so absent ones become `None`. -/
def buildEventRecords : List JVal → Except String (List JVal)
  | [] => .ok []
  | event :: rest => do
    let idv ← pyIndex event "id"
    let sv ← pyGet event "summary"
    let stv ← pyGet event "start"
    let env ← pyGet event "end"
    let lv ← pyGet event "location"
    let recs ← buildEventRecords rest
    return .obj [("id", idv), ("summary", sv), ("start", stv),
                 ("end", env), ("location", lv)] :: recs

/-- The request parameter dictionary of `list_events`; `now` stands for
`datetime.now().isoformat()`. -/
def listEventsParams (now : String) (maxResults : Int)
    (timeMin timeMax : Option String) : JVal :=
  let tmin :=
    match timeMin with
    | some t => if t == "" then now ++ "Z" else t
    | none => now ++ "Z"
  .obj ([("calendarId", .str "primary"), ("timeMin", .str tmin),
         ("maxResults", .num maxResults), ("singleEvents", .bool true),
         ("orderBy", .str "startTime")] ++
    (match timeMax with
     | some t => if t == "" then [] else [("timeMax", .str t)]
     | none => []))

/-- Tool `list_events(maxResults, timeMin, timeMax)`. -/
def list_events (c : CalendarService) (now : String) (maxResults : Int)
    (timeMin timeMax : Option String) : String :=
  match (do
    let response ← c.eventsList (listEventsParams now maxResults timeMin timeMax)
    let itemsv ← pyGetD response "items" (.arr [])
    let items ← pyIter itemsv
    buildEventRecords items : Except String (List JVal)) with
  | .ok events => jsonDumps (.arr events)
  | .error e => "Error fetching calendar events: " ++ e

/-! ### `create_event` / `update_event` / `delete_event`
(src/main.py lines 230-314) -/

/-- The event dictionary built by `create_event`: fixed `summary`, `start`
and `end` (each with the hard-coded `Asia/Seoul` timezone), then `location`,
`description` and `attendees` appended when truthy. -/
def buildCreateEventBody (summary start endv : String) (location description : Option String)
    (attendees : Option (List String)) : JVal :=
  .obj ([("summary", .str summary),
         ("start", .obj [("dateTime", .str start), ("timeZone", .str "Asia/Seoul")]),
         ("end", .obj [("dateTime", .str endv), ("timeZone", .str "Asia/Seoul")])] ++
    (match location with
     | some l => if l == "" then [] else [("location", .str l)]
     | none => []) ++
    (match description with
     | some d => if d == "" then [] else [("description", .str d)]
     | none => []) ++
    (match attendees with
     | some l => if l.isEmpty then [] else [("attendees", .arr (l.map fun em => .obj [("email", .str em)]))]
     | none => []))

/-- Tool `create_event(summary, start, end, location, description, attendees)`. -/
def create_event (c : CalendarService) (summary start endv : String)
    (location description : Option String) (attendees : Option (List String)) : String :=
  match (do
    let response ← c.eventsInsert (buildCreateEventBody summary start endv location description attendees)
    let idv ← pyIndex response "id"
    return "Event created successfully. Event ID: " ++ pyStr idv : Except String String) with
  | .ok s => s
  | .error e => "Error creating event: " ++ e

/-- Conditional field of the `update_event` patch body for a plain string
parameter: present exactly when the argument is truthy. -/
def strOptField (k : String) (v : Option String) : List (String × JVal) :=
  match v with
  | some s => if s == "" then [] else [(k, .str s)]
  | none => []

/-- Conditional `start`/`end` field of the `update_event` patch body, with
the hard-coded `Asia/Seoul` timezone. -/
def tzOptField (k : String) (v : Option String) : List (String × JVal) :=
  match v with
  | some s =>
    if s == "" then []
    else [(k, .obj [("dateTime", .str s), ("timeZone", .str "Asia/Seoul")])]
  | none => []

/-- Conditional `attendees` field of the `update_event` patch body. -/
def attOptField (v : Option (List String)) : List (String × JVal) :=
  match v with
  | some l =>
    if l.isEmpty then []
    else [("attendees", .arr (l.map fun em => .obj [("email", .str em)]))]
  | none => []

/-- The patch dictionary built by `update_event`: empty to start with, each
optional parameter appended only when truthy, in source order. -/
def buildUpdateEventBody (summary location description start endv : Option String)
    (attendees : Option (List String)) : JVal :=
  .obj (strOptField "summary" summary ++ strOptField "location" location ++
        strOptField "description" description ++ tzOptField "start" start ++
        tzOptField "end" endv ++ attOptField attendees)

/-- Tool `update_event(eventId, summary, location, description, start, end, attendees)`. -/
def update_event (c : CalendarService) (eventId : String)
    (summary location description start endv : Option String)
    (attendees : Option (List String)) : String :=
  match (do
    let response ← c.eventsPatch eventId (buildUpdateEventBody summary location description start endv attendees)
    let idv ← pyIndex response "id"
    return "Event updated successfully. Event ID: " ++ pyStr idv : Except String String) with
  | .ok s => s
  | .error e => "Error updating event: " ++ e

/-- Tool `delete_event(eventId)`. -/
def delete_event (c : CalendarService) (eventId : String) : String :=
  match (do
    let _ ← c.eventsDelete eventId
    return "Event deleted successfully. Event ID: " ++ eventId : Except String String) with
  | .ok s => s
  | .error e => "Error deleting event: " ++ e

/-! ### Startup credential check (src/main.py lines 23-28) -/

/-- The module-load credential check: `ValueError` unless all three
environment values are truthy (`os.getenv` gives `None` when absent). -/
def startupCheck (clientId clientSecret refreshToken : Option String) : Except String Unit :=
  if !(optStrTruthy clientId && optStrTruthy clientSecret && optStrTruthy refreshToken) then
    .error "Required Google OAuth credentials not found in environment variables"
  else .ok ()

/-! ### Specification-side helpers

These restate, in terms of `List.find?` and total lookups, what the claims
say the handlers compute; the theorems relate them to the code-side
functions above. -/

/-- Elements of a list value (`[]` for non-lists). -/
def jArrList : JVal → List JVal
  | .arr xs => xs
  | _ => []

/-- The value of an `Except`, with a default for the error case. -/
def exceptOr : Except String String → String → String
  | .ok s, _ => s
  | .error _, d => d

/-- Did the computation succeed? -/
def isOkExc {α : Type} : Except String α → Bool
  | .ok _ => true
  | .error _ => false

/-- Specification-side header extraction: the `value` of the first header
whose `name` equals `nm`, defaulting to the empty string. -/
def specHeaderVal (hs : List JVal) (nm : String) : JVal :=
  match hs.find? (fun h => jEqStr (jLook h "name") nm) with
  | some h => jLook h "value"
  | none => .str ""

/-- Well-formed header list: each entry is a dictionary binding
`name` and `value`. -/
def wfHeaders (hs : List JVal) : Bool :=
  hs.all fun h => isObjB h && hasKey h "name" && hasKey h "value"

/-- Specification-side flat email record of `list_emails`. -/
def specEmailRecord (idv d : JVal) : JVal :=
  let p := jLook d "payload"
  let hs := jArrList (jLookD p "headers" (.arr []))
  .obj [("id", idv), ("subject", specHeaderVal hs "Subject"),
        ("from", specHeaderVal hs "From"), ("date", specHeaderVal hs "Date"),
        ("body", .str (exceptOr (get_email_body p) ""))]

/-- Well-formed message detail: has a dictionary `payload` whose `headers`
(defaulted to `[]`) form a well-formed list, and whose body extraction
succeeds. -/
def wfDetail (d : JVal) : Bool :=
  isObjB d && hasKey d "payload" &&
  isObjB (jLook d "payload") &&
  (match jLookD (jLook d "payload") "headers" (.arr []) with
   | .arr hs => wfHeaders hs
   | _ => false) &&
  isOkExc (get_email_body (jLook d "payload"))

/-- The inline-body condition of `get_email_body`: a truthy `body` whose
`data` is truthy. -/
def inlineCond (p : JVal) : Bool :=
  truthy (jLook p "body") && truthy (jLook (jLook p "body") "data")

/-- The part predicate of `get_email_body`: `mimeType` equals `text/plain`
and `body.data` (with `body` defaulted to the empty dictionary) is truthy. -/
def plainPartP (part : JVal) : Bool :=
  jEqStr (jLook part "mimeType") "text/plain" &&
    truthy (jLook (jLookD part "body" (.obj [])) "data")

/-- The parts list of a payload (`[]` when absent or not a list). -/
def partsOf (p : JVal) : List JVal :=
  jArrList (jLook p "parts")

/-- Well-formed message payload for `get_email_body`: a dictionary whose
`body`, when truthy, is a dictionary, and whose `parts`, when truthy, is a
list of dictionaries whose `body` default is a dictionary whenever their
`mimeType` is `text/plain`. -/
def wfPayload (p : JVal) : Bool :=
  isObjB p &&
  (!truthy (jLook p "body") || isObjB (jLook p "body")) &&
  (match jLook p "parts" with
   | .arr parts =>
     parts.all fun part =>
       isObjB part &&
       (!(jEqStr (jLook part "mimeType") "text/plain") ||
         isObjB (jLookD part "body" (.obj [])))
   | v => !truthy v)

/-- A Gmail service whose every call raises with message `e`. -/
def failGmail (e : String) : GmailService :=
  ⟨fun _ _ => .error e, fun _ => .error e, fun _ => .error e, fun _ _ _ => .error e⟩

/-- A Calendar service whose every call raises with message `e`. -/
def failCal (e : String) : CalendarService :=
  ⟨fun _ => .error e, fun _ => .error e, fun _ _ => .error e, fun _ => .error e⟩

/-- A Gmail service returning a canned two-message list response and a
per-id detail response. -/
def cannedGmail (id1 id2 : JVal) (df : JVal → JVal) : GmailService :=
  ⟨fun _ _ => .ok (.obj [("messages", .arr [.obj [("id", id1)], .obj [("id", id2)]])]),
   fun i => .ok (df i), fun _ => .error "canned", fun _ _ _ => .error "canned"⟩

/-- A Gmail service used to exercise the per-message loops alone. -/
def getOnlyGmail (df : JVal → JVal) : GmailService :=
  ⟨fun _ _ => .error "unused", fun i => .ok (df i),
   fun _ => .error "unused", fun _ _ _ => .error "unused"⟩

/-- Sample message detail: `Subject`/`From`/`Date` headers and an inline
body whose data decodes to `hi`. -/
def sampleDetail : JVal :=
  .obj [("payload", .obj [
    ("headers", .arr [.obj [("name", .str "Subject"), ("value", .str "Hello")],
                      .obj [("name", .str "From"), ("value", .str "a@b.c")],
                      .obj [("name", .str "Date"), ("value", .str "Mon")]]),
    ("body", .obj [("data", .str "aGk")])])]

/-- Sample payload with an inline body whose data decodes to `hi`. -/
def sampleInlinePayload : JVal :=
  .obj [("body", .obj [("data", .str "aGk")])]

/-- Payload whose inline body data decodes to the literal sentinel text
`(No body content)`. -/
def sentinelCollisionPayload : JVal :=
  .obj [("body", .obj [("data", .str "KE5vIGJvZHkgY29udGVudCk=")])]

/-- Truthy payload with neither a `body` nor `parts`. -/
def bareTruthyPayload : JVal :=
  .obj [("x", .str "1")]

/-- The header-line list of `send_email` as one explicit list, in the order
the claim states: `Content-Type`, `MIME-Version`, `To`, optional `Cc`,
optional `Bcc`, `Subject`. -/
def specHeaderList (toAddr subject : String) (cc bcc : Option String) : List String :=
  ["Content-Type: text/plain; charset=\"UTF-8\"", "MIME-Version: 1.0", "To: " ++ toAddr] ++
  (if optStrTruthy cc then ["Cc: " ++ cc.getD ""] else []) ++
  (if optStrTruthy bcc then ["Bcc: " ++ bcc.getD ""] else []) ++
  ["Subject: " ++ subject]

/-! ## Base64 lemmas -/

/-- The base64url alphabet map and its inverse agree below 64. -/
theorem b64Val_b64Char : ∀ v, v < 64 → b64Val (b64Char v) = some v := by decide

/-- No alphabet character is the padding character. -/
theorem b64Char_ne_pad : ∀ v, v < 64 → (b64Char v == Char.ofNat 61) = false := by decide

/-- Lemma: `dropWhile` passes over a final element that fails the predicate. -/
theorem dropWhile_append_last {α : Type} (p : α → Bool) (l : List α) (c : α)
    (hc : p c = false) : (l ++ [c]).dropWhile p = l.dropWhile p ++ [c] := by
  induction l with
  | nil => simp [List.dropWhile_cons, hc]
  | cons a t ih =>
    by_cases h : p a = true
    · simp [List.dropWhile_cons, h, ih]
    · simp [List.dropWhile_cons, h]

/-- Stripping trailing padding passes over a non-padding head. -/
theorem rstripEq_cons_ne (c : Char) (t : List Char) (hc : (c == Char.ofNat 61) = false) :
    rstripEq (c :: t) = c :: rstripEq t := by
  unfold rstripEq
  rw [List.reverse_cons,
    dropWhile_append_last (fun x => x == Char.ofNat 61) t.reverse c hc,
    List.reverse_append]
  simp

/-- Stripping trailing padding from a padding-free list is the identity. -/
theorem rstripEq_all_ne (l : List Char) (h : ∀ c ∈ l, (c == Char.ofNat 61) = false) :
    rstripEq l = l := by
  induction l with
  | nil => rfl
  | cons a t ih =>
    rw [rstripEq_cons_ne a t (h a (by simp)), ih (fun c hc => h c (by simp [hc]))]

/-- The unpadded encoding never contains the padding character. -/
theorem b64EncNoPad_ne_pad :
    ∀ bs : List Nat, (∀ b ∈ bs, b < 256) →
      ∀ c ∈ b64EncNoPad bs, (c == Char.ofNat 61) = false := by
  intro bs
  induction bs using b64EncNoPad.induct with
  | case1 => intro _ c hc; simp [b64EncNoPad] at hc
  | case2 b1 =>
    intro h c hc
    have hb1 : b1 < 256 := h b1 (by simp)
    simp only [b64EncNoPad, List.mem_cons, List.not_mem_nil, or_false] at hc
    rcases hc with rfl | rfl
    · exact b64Char_ne_pad _ (by omega)
    · exact b64Char_ne_pad _ (by omega)
  | case3 b1 b2 =>
    intro h c hc
    have hb1 : b1 < 256 := h b1 (by simp)
    have hb2 : b2 < 256 := h b2 (by simp)
    simp only [b64EncNoPad, List.mem_cons, List.not_mem_nil, or_false] at hc
    rcases hc with rfl | rfl | rfl
    · exact b64Char_ne_pad _ (by omega)
    · exact b64Char_ne_pad _ (by omega)
    · exact b64Char_ne_pad _ (by omega)
  | case4 b1 b2 b3 rest ih =>
    intro h c hc
    have hb1 : b1 < 256 := h b1 (by simp)
    have hb2 : b2 < 256 := h b2 (by simp)
    have hb3 : b3 < 256 := h b3 (by simp)
    simp only [b64EncNoPad, List.mem_cons] at hc
    rcases hc with rfl | rfl | rfl | rfl | hmem
    · exact b64Char_ne_pad _ (by omega)
    · exact b64Char_ne_pad _ (by omega)
    · exact b64Char_ne_pad _ (by omega)
    · exact b64Char_ne_pad _ (by omega)
    · exact ih (fun b hb => h b (by simp [hb])) c hmem

/-- Stripping the padded encoding gives the unpadded encoding. -/
theorem rstripEq_b64EncodeChunks :
    ∀ bs : List Nat, (∀ b ∈ bs, b < 256) →
      rstripEq (b64EncodeChunks bs) = b64EncNoPad bs := by
  intro bs
  induction bs using b64EncodeChunks.induct with
  | case1 => intro _; rfl
  | case2 b1 =>
    intro h
    have hb1 : b1 < 256 := h b1 (by simp)
    rw [show b64EncodeChunks [b1] =
          b64Char (b1 / 4) :: b64Char (b1 % 4 * 16) :: [Char.ofNat 61, Char.ofNat 61] from rfl]
    rw [rstripEq_cons_ne _ _ (b64Char_ne_pad _ (by omega))]
    rw [rstripEq_cons_ne _ _ (b64Char_ne_pad _ (by omega))]
    rw [show rstripEq [Char.ofNat 61, Char.ofNat 61] = [] by decide]
    rfl
  | case3 b1 b2 =>
    intro h
    have hb1 : b1 < 256 := h b1 (by simp)
    have hb2 : b2 < 256 := h b2 (by simp)
    rw [show b64EncodeChunks [b1, b2] =
          b64Char (b1 / 4) :: b64Char (b1 % 4 * 16 + b2 / 16) ::
            b64Char (b2 % 16 * 4) :: [Char.ofNat 61] from rfl]
    rw [rstripEq_cons_ne _ _ (b64Char_ne_pad _ (by omega))]
    rw [rstripEq_cons_ne _ _ (b64Char_ne_pad _ (by omega))]
    rw [rstripEq_cons_ne _ _ (b64Char_ne_pad _ (by omega))]
    rw [show rstripEq [Char.ofNat 61] = [] by decide]
    rfl
  | case4 b1 b2 b3 rest ih =>
    intro h
    have hb1 : b1 < 256 := h b1 (by simp)
    have hb2 : b2 < 256 := h b2 (by simp)
    have hb3 : b3 < 256 := h b3 (by simp)
    rw [show b64EncodeChunks (b1 :: b2 :: b3 :: rest) =
          b64Char (b1 / 4) :: b64Char (b1 % 4 * 16 + b2 / 16) ::
            b64Char (b2 % 16 * 4 + b3 / 64) :: b64Char (b3 % 64) ::
            b64EncodeChunks rest from rfl]
    rw [rstripEq_cons_ne _ _ (b64Char_ne_pad _ (by omega))]
    rw [rstripEq_cons_ne _ _ (b64Char_ne_pad _ (by omega))]
    rw [rstripEq_cons_ne _ _ (b64Char_ne_pad _ (by omega))]
    rw [rstripEq_cons_ne _ _ (b64Char_ne_pad _ (by omega))]
    rw [ih (fun b hb => h b (by simp [hb]))]
    rfl

/-- Decoding inverts the unpadded encoding on byte lists. -/
theorem b64DecodeChunks_b64EncNoPad :
    ∀ bs : List Nat, (∀ b ∈ bs, b < 256) →
      b64DecodeChunks (b64EncNoPad bs) = some bs := by
  intro bs
  induction bs using b64EncNoPad.induct with
  | case1 => intro _; rfl
  | case2 b1 =>
    intro h
    have hb1 : b1 < 256 := h b1 (by simp)
    have e1 := b64Val_b64Char (b1 / 4) (by omega)
    have e2 := b64Val_b64Char (b1 % 4 * 16) (by omega)
    simp only [b64EncNoPad, b64DecodeChunks, e1, e2, Option.some.injEq,
      List.cons.injEq, and_true]
    omega
  | case3 b1 b2 =>
    intro h
    have hb1 : b1 < 256 := h b1 (by simp)
    have hb2 : b2 < 256 := h b2 (by simp)
    have e1 := b64Val_b64Char (b1 / 4) (by omega)
    have e2 := b64Val_b64Char (b1 % 4 * 16 + b2 / 16) (by omega)
    have e3 := b64Val_b64Char (b2 % 16 * 4) (by omega)
    simp only [b64EncNoPad, b64DecodeChunks, e1, e2, e3, Option.some.injEq,
      List.cons.injEq, and_true]
    omega
  | case4 b1 b2 b3 rest ih =>
    intro h
    have hb1 : b1 < 256 := h b1 (by simp)
    have hb2 : b2 < 256 := h b2 (by simp)
    have hb3 : b3 < 256 := h b3 (by simp)
    have e1 := b64Val_b64Char (b1 / 4) (by omega)
    have e2 := b64Val_b64Char (b1 % 4 * 16 + b2 / 16) (by omega)
    have e3 := b64Val_b64Char (b2 % 16 * 4 + b3 / 64) (by omega)
    have e4 := b64Val_b64Char (b3 % 64) (by omega)
    have ihh := ih (fun b hb => h b (by simp [hb]))
    simp only [b64EncNoPad, b64DecodeChunks, e1, e2, e3, e4, ihh,
      Option.some.injEq, List.cons.injEq, and_true]
    omega

/-- Every UTF-8 byte value is below 256. -/
theorem utf8EncodeCharNat_lt (c : Char) : ∀ b ∈ utf8EncodeCharNat c, b < 256 := by
  intro b hb
  have hc : c.toNat < 1114112 := by
    rcases c.valid with h | ⟨h1, h2⟩
    · exact lt_trans h (by norm_num)
    · exact h2
  unfold utf8EncodeCharNat at hb
  by_cases h1 : c.toNat < 128
  · simp [h1] at hb; omega
  · by_cases h2 : c.toNat < 2048
    · simp [h1, h2] at hb; rcases hb with rfl | rfl <;> omega
    · by_cases h3 : c.toNat < 65536
      · simp [h1, h2, h3] at hb; rcases hb with rfl | rfl | rfl <;> omega
      · simp [h1, h2, h3] at hb; rcases hb with rfl | rfl | rfl | rfl <;> omega

/-- Every byte of a UTF-8 encoded string is below 256. -/
theorem utf8Str_lt (s : String) : ∀ b ∈ utf8Str s, b < 256 := by
  intro b hb
  unfold utf8Str at hb
  rw [List.mem_flatMap] at hb
  obtain ⟨c, _, hbc⟩ := hb
  exact utf8EncodeCharNat_lt c b hbc

/-- UTF-8 encoding distributes over string concatenation. -/
theorem utf8Str_append (a b : String) : utf8Str (a ++ b) = utf8Str a ++ utf8Str b := by
  unfold utf8Str
  rw [String.data_append, List.flatMap_append]

/-- The stepwise header construction of `send_email` equals the single
explicit header list followed by the blank line and the body. -/
theorem composeEmail_eq (toAddr subject bodyStr : String) (cc bcc : Option String) :
    composeEmail toAddr subject bodyStr cc bcc =
      String.intercalate "\r\n" (specHeaderList toAddr subject cc bcc) ++
        "\r\n\r\n" ++ bodyStr := by
  rcases cc with _ | c <;> rcases bcc with _ | b
  · rfl
  · by_cases hb : b = "" <;> simp [composeEmail, specHeaderList, optStrTruthy, hb]
  · by_cases hc : c = "" <;> simp [composeEmail, specHeaderList, optStrTruthy, hc]
  · by_cases hb : b = "" <;> by_cases hc : c = "" <;>
      simp [composeEmail, specHeaderList, optStrTruthy, hb, hc]

/-- The character list of the raw payload is the unpadded encoding of the
composed message's UTF-8 bytes. -/
theorem sendEmailRaw_data (toAddr subject bodyStr : String) (cc bcc : Option String) :
    (sendEmailRaw toAddr subject bodyStr cc bcc).data =
      b64EncNoPad (utf8Str (composeEmail toAddr subject bodyStr cc bcc)) := by
  show rstripEq (b64EncodeChunks (utf8Str (composeEmail toAddr subject bodyStr cc bcc))) = _
  exact rstripEq_b64EncodeChunks _ (utf8Str_lt _)

/-- C2: for every `to`, `subject`, `body` and optional `cc`/`bcc`, base64url
decoding of the raw payload produced by `send_email` reproduces exactly the
UTF-8 bytes of the composed message, which is the header block, the blank
line and the body. -/
theorem send_email_encoding_roundtrip (toAddr subject bodyStr : String)
    (cc bcc : Option String) :
    b64urlDecodeStr (sendEmailRaw toAddr subject bodyStr cc bcc) =
      some (utf8Str (composeEmail toAddr subject bodyStr cc bcc)) ∧
    utf8Str (composeEmail toAddr subject bodyStr cc bcc) =
      utf8Str (String.intercalate "\r\n" (specHeaderList toAddr subject cc bcc)) ++
        utf8Str "\r\n\r\n" ++ utf8Str bodyStr := by
  constructor
  · unfold b64urlDecodeStr
    rw [sendEmailRaw_data]
    have hlt := utf8Str_lt (composeEmail toAddr subject bodyStr cc bcc)
    rw [rstripEq_all_ne _ (b64EncNoPad_ne_pad _ hlt)]
    exact b64DecodeChunks_b64EncNoPad _ hlt
  · rw [composeEmail_eq, utf8Str_append, utf8Str_append]

/-- C5: the composed message is the header lines in the order Content-Type,
MIME-Version, To, optional Cc, optional Bcc, Subject, joined by CRLF and
followed by a blank line and the body; the payload is its URL-safe base64
encoding with trailing padding stripped, and contains no padding character
at all. -/
theorem send_email_message_format (toAddr subject bodyStr : String)
    (cc bcc : Option String) :
    composeEmail toAddr subject bodyStr cc bcc =
      String.intercalate "\r\n" (specHeaderList toAddr subject cc bcc) ++
        "\r\n\r\n" ++ bodyStr ∧
    sendEmailRaw toAddr subject bodyStr cc bcc =
      String.mk (rstripEq (b64EncodeChunks
        (utf8Str (composeEmail toAddr subject bodyStr cc bcc)))) ∧
    ((sendEmailRaw toAddr subject bodyStr cc bcc).data.all
      fun ch => !(ch == Char.ofNat 61)) = true := by
  refine ⟨composeEmail_eq toAddr subject bodyStr cc bcc, rfl, ?_⟩
  rw [List.all_eq_true]
  intro ch hch
  rw [sendEmailRaw_data] at hch
  have := b64EncNoPad_ne_pad _ (utf8Str_lt _) ch hch
  simp [this]

/-! ## Body-extraction lemmas (for C1, C8) -/

/-- On a dictionary, `get` never raises and returns the total lookup. -/
theorem pyGet_obj (v : JVal) (k : String) (h : isObjB v = true) :
    pyGet v k = .ok (jLook v k) := by
  cases v <;> simp_all [pyGet, jLook, isObjB]

/-- On a dictionary, `get` with a default never raises and returns the
total lookup with that default. -/
theorem pyGetD_obj (v : JVal) (k : String) (d : JVal) (h : isObjB v = true) :
    pyGetD v k d = .ok (jLookD v k d) := by
  cases v <;> simp_all [pyGetD, jLookD, isObjB]

/-- On well-formed parts, the scanning loop of `get_email_body` decodes the
first part satisfying the plain-text predicate, or falls through to the
sentinel. -/
theorem scanParts_eq_find (parts : List JVal)
    (h : ∀ part ∈ parts, isObjB part = true ∧
      (jEqStr (jLook part "mimeType") "text/plain" = true →
        isObjB (jLookD part "body" (.obj [])) = true)) :
    scanParts parts =
      match parts.find? plainPartP with
      | some part => jB64DecodeUtf8 (jLook (jLookD part "body" (.obj [])) "data")
      | none => .ok "(No body content)" := by
  induction parts with
  | nil => rfl
  | cons part rest ih =>
    obtain ⟨hobj, hbody⟩ := h part (by simp)
    have hrest := ih fun q hq => h q (List.mem_cons_of_mem _ hq)
    by_cases hmt : jEqStr (jLook part "mimeType") "text/plain" = true
    · have hbodyobj := hbody hmt
      by_cases hdt : truthy (jLook (jLookD part "body" (.obj [])) "data") = true
      · have hp : plainPartP part = true := by simp [plainPartP, hmt, hdt]
        simp [scanParts, pyGet_obj part "mimeType" hobj, hmt,
          pyGetD_obj part "body" _ hobj, pyGet_obj _ "data" hbodyobj, hdt,
          List.find?_cons, hp]
      · have hp : plainPartP part = false := by
          simp [plainPartP, hdt, Bool.and_eq_false_iff]
        simp [scanParts, pyGet_obj part "mimeType" hobj, hmt,
          pyGetD_obj part "body" _ hobj, pyGet_obj _ "data" hbodyobj, hdt,
          List.find?_cons, hp, hrest]
    · rw [Bool.not_eq_true] at hmt
      have hp : plainPartP part = false := by simp [plainPartP, hmt]
      simp [scanParts, pyGet_obj part "mimeType" hobj, hmt, List.find?_cons, hp, hrest]

/-- On a well-formed payload, the parts fall-through of `get_email_body`
decodes the first matching part or returns the sentinel. -/
theorem partsFallback_eq_find (p : JVal) (hobj : isObjB p = true)
    (hpw : (match jLook p "parts" with
            | .arr parts =>
              parts.all fun part =>
                isObjB part &&
                (!(jEqStr (jLook part "mimeType") "text/plain") ||
                  isObjB (jLookD part "body" (.obj [])))
            | v => !truthy v) = true) :
    partsFallback p =
      match (partsOf p).find? plainPartP with
      | some part => jB64DecodeUtf8 (jLook (jLookD part "body" (.obj [])) "data")
      | none => .ok "(No body content)" := by
  simp only [partsFallback, pyGet_obj p "parts" hobj]
  cases hpv : jLook p "parts" with
  | arr parts =>
    rw [hpv] at hpw
    have hall : ∀ part ∈ parts, isObjB part = true ∧
        (jEqStr (jLook part "mimeType") "text/plain" = true →
          isObjB (jLookD part "body" (.obj [])) = true) := by
      intro part hp
      have hx := List.all_eq_true.mp hpw part hp
      rw [Bool.and_eq_true] at hx
      refine ⟨hx.1, fun hmt => ?_⟩
      have ho := hx.2
      rw [Bool.or_eq_true, Bool.not_eq_true', hmt] at ho
      simpa using ho
    cases parts with
    | nil => simp [truthy, partsOf, jArrList, hpv]
    | cons q qs =>
      have ht : truthy (.arr (q :: qs)) = true := by simp [truthy]
      simp only [ht, if_true]
      rw [scanParts_eq_find _ hall]
      simp [partsOf, jArrList, hpv]
  | null =>
    simp [truthy, partsOf, jArrList, hpv]
  | str s =>
    rw [hpv] at hpw
    simp [truthy] at hpw
    simp [truthy, hpw, partsOf, jArrList, hpv]
  | num n =>
    rw [hpv] at hpw
    simp [truthy] at hpw
    simp [truthy, hpw, partsOf, jArrList, hpv]
  | bool b =>
    rw [hpv] at hpw
    simp [truthy] at hpw
    simp [truthy, hpw, partsOf, jArrList, hpv]
  | obj fs =>
    rw [hpv] at hpw
    simp [truthy] at hpw
    simp [truthy, hpw, partsOf, jArrList, hpv]

/-- Characterization of `get_email_body` on truthy, well-formed payloads:
inline body first, then the first matching part, then the sentinel. -/
theorem get_email_body_char (p : JVal) (hwf : wfPayload p = true) (ht : truthy p = true) :
    get_email_body p =
      if inlineCond p = true then jB64DecodeUtf8 (jLook (jLook p "body") "data")
      else
        match (partsOf p).find? plainPartP with
        | some part => jB64DecodeUtf8 (jLook (jLookD part "body" (.obj [])) "data")
        | none => .ok "(No body content)" := by
  have hwfx := hwf
  simp only [wfPayload, Bool.and_eq_true] at hwfx
  obtain ⟨⟨hobj, hbody⟩, hparts⟩ := hwfx
  unfold get_email_body
  rw [pyGet_obj p "body" hobj]
  by_cases hb : truthy (jLook p "body") = true
  · have hbo : isObjB (jLook p "body") = true := by
      rw [hb] at hbody
      simpa using hbody
    by_cases hd : truthy (jLook (jLook p "body") "data") = true
    · have hic : inlineCond p = true := by simp [inlineCond, hb, hd]
      simp [ht, hb, hd, hic, pyGet_obj _ "data" hbo]
    · rw [Bool.not_eq_true] at hd
      have hic : inlineCond p = false := by simp [inlineCond, hd]
      simp [ht, hb, hd, hic, pyGet_obj _ "data" hbo,
        partsFallback_eq_find p hobj hparts]
  · rw [Bool.not_eq_true] at hb
    have hic : inlineCond p = false := by simp [inlineCond, hb]
    simp [ht, hb, hic, partsFallback_eq_find p hobj hparts]

/-- C1: for every truthy, well-formed Gmail message payload,
`get_email_body` returns the decoded top-level inline body when one is
present; otherwise the decoded body of the first part (one level deep)
whose mimeType is `text/plain` and which has body data; otherwise the
sentinel `"(No body content)"` — in exactly this precedence order. -/
theorem get_email_body_precedence (p : JVal)
    (hwf : wfPayload p = true) (ht : truthy p = true) :
    get_email_body p =
      if inlineCond p = true then jB64DecodeUtf8 (jLook (jLook p "body") "data")
      else
        match (partsOf p).find? plainPartP with
        | some part => jB64DecodeUtf8 (jLook (jLookD part "body" (.obj [])) "data")
        | none => .ok "(No body content)" :=
  get_email_body_char p hwf ht

/-- Witness for C1 at a concrete inline-body payload. -/
theorem get_email_body_precedence_witness :
    get_email_body sampleInlinePayload =
      if inlineCond sampleInlinePayload = true then
        jB64DecodeUtf8 (jLook (jLook sampleInlinePayload "body") "data")
      else
        match (partsOf sampleInlinePayload).find? plainPartP with
        | some part => jB64DecodeUtf8 (jLook (jLookD part "body" (.obj [])) "data")
        | none => .ok "(No body content)" :=
  get_email_body_precedence sampleInlinePayload (by rfl) (by rfl)

/-- C8 counterexample: a payload that does have truthy inline body data,
whose decoded body text happens to equal `(No body content)`, makes
`get_email_body` return the sentinel — so the sentinel is not returned only
for payloads with neither inline data nor a matching part. -/
theorem sentinel_not_only_fallback :
    get_email_body sentinelCollisionPayload = .ok "(No body content)" ∧
    truthy sentinelCollisionPayload = true ∧
    inlineCond sentinelCollisionPayload = true := by
  exact ⟨by rfl, by rfl, by rfl⟩

/-- C8 (amended): for an empty or absent payload `get_email_body` returns
`""`, not the sentinel; and a truthy, well-formed payload yields the
sentinel only when it has neither truthy inline body data nor a matching
plain-text part, or when the decoded data of the selected branch is itself
the literal sentinel text. -/
theorem get_email_body_empty_vs_sentinel (p : JVal)
    (hwf : wfPayload p = true) (ht : truthy p = true)
    (hres : get_email_body p = .ok "(No body content)") :
    (get_email_body JVal.null = .ok "" ∧ get_email_body (JVal.obj []) = .ok "") ∧
    ((inlineCond p = false ∧ (partsOf p).find? plainPartP = none) ∨
     (inlineCond p = true ∧
       jB64DecodeUtf8 (jLook (jLook p "body") "data") = .ok "(No body content)") ∨
     (∃ part, (partsOf p).find? plainPartP = some part ∧
       jB64DecodeUtf8 (jLook (jLookD part "body" (.obj [])) "data") =
         .ok "(No body content)")) := by
  refine ⟨⟨rfl, rfl⟩, ?_⟩
  rw [get_email_body_char p hwf ht] at hres
  by_cases hic : inlineCond p = true
  · rw [if_pos hic] at hres
    exact Or.inr (Or.inl ⟨hic, hres⟩)
  · rw [if_neg hic] at hres
    rw [Bool.not_eq_true] at hic
    cases hf : (partsOf p).find? plainPartP with
    | none => exact Or.inl ⟨hic, rfl⟩
    | some part =>
      rw [hf] at hres
      exact Or.inr (Or.inr ⟨part, rfl, hres⟩)

/-- Witness for C8 at a concrete truthy payload without body or parts. -/
theorem get_email_body_empty_vs_sentinel_witness :
    (get_email_body JVal.null = .ok "" ∧ get_email_body (JVal.obj []) = .ok "") ∧
    ((inlineCond bareTruthyPayload = false ∧
       (partsOf bareTruthyPayload).find? plainPartP = none) ∨
     (inlineCond bareTruthyPayload = true ∧
       jB64DecodeUtf8 (jLook (jLook bareTruthyPayload "body") "data") =
         .ok "(No body content)") ∨
     (∃ part, (partsOf bareTruthyPayload).find? plainPartP = some part ∧
       jB64DecodeUtf8 (jLook (jLookD part "body" (.obj [])) "data") =
         .ok "(No body content)")) :=
  get_email_body_empty_vs_sentinel bareTruthyPayload (by rfl) (by rfl) (by rfl)

/-! ## Error handling (C3, C6) -/

/-- C3: when the remote call raises, every tool handler returns a plain
string made of its fixed documented prefix followed by the error
description, instead of propagating the exception. -/
theorem handlers_catch_remote_errors (e query toAddr subject bodyStr id eventId now
      summary start endv : String) (maxResults : Int)
    (cc bcc timeMin timeMax location description : Option String)
    (addLabels removeLabels attendees : Option (List String))
    (usummary ulocation udescription ustart uendv : Option String)
    (uattendees : Option (List String)) :
    list_emails (failGmail e) maxResults query = "Error fetching emails: " ++ e ∧
    search_emails (failGmail e) query maxResults = "Error fetching emails: " ++ e ∧
    send_email (failGmail e) toAddr subject bodyStr cc bcc = "Error sending email: " ++ e ∧
    modify_email (failGmail e) id addLabels removeLabels = "Error modifying email: " ++ e ∧
    list_events (failCal e) now maxResults timeMin timeMax =
      "Error fetching calendar events: " ++ e ∧
    create_event (failCal e) summary start endv location description attendees =
      "Error creating event: " ++ e ∧
    update_event (failCal e) eventId usummary ulocation udescription ustart uendv uattendees =
      "Error updating event: " ++ e ∧
    delete_event (failCal e) eventId = "Error deleting event: " ++ e :=
  ⟨rfl, rfl, rfl, rfl, rfl, rfl, rfl, rfl⟩

/-- C6: the startup check fails exactly when one of the three OAuth values
is untruthy, and in particular whenever any of them is absent; the handlers
themselves are total functions that return strings, so no other failure is
fatal. -/
theorem startup_requires_credentials (cid cs rt : Option String) :
    startupCheck cid cs rt =
      (if optStrTruthy cid && optStrTruthy cs && optStrTruthy rt then .ok ()
       else .error "Required Google OAuth credentials not found in environment variables") ∧
    startupCheck none cs rt =
      .error "Required Google OAuth credentials not found in environment variables" ∧
    startupCheck cid none rt =
      .error "Required Google OAuth credentials not found in environment variables" ∧
    startupCheck cid cs none =
      .error "Required Google OAuth credentials not found in environment variables" := by
  refine ⟨?_, ?_, ?_, ?_⟩
  · unfold startupCheck
    cases h : (optStrTruthy cid && optStrTruthy cs && optStrTruthy rt) <;> simp [h]
  · simp [startupCheck, optStrTruthy]
  · simp [startupCheck, optStrTruthy]
  · simp [startupCheck, optStrTruthy]

/-! ## Association-list lemmas for the event bodies (C9, C10) -/

/-- Lookup distributes over appended field lists, preferring the left. -/
theorem lookupField_append (a b : List (String × JVal)) (k : String) :
    lookupField (a ++ b) k =
      match lookupField a k with
      | some v => some v
      | none => lookupField b k := by
  induction a with
  | nil => rfl
  | cons f rest ih =>
    by_cases h : (f.1 == k) = true <;> simp [lookupField, h, ih]

/-- A conditional string field contributes nothing under a different key. -/
theorem lookupField_strOptField_ne (k0 k : String) (v : Option String)
    (h : (k0 == k) = false) : lookupField (strOptField k0 v) k = none := by
  cases v with
  | none => rfl
  | some s => by_cases hs : s = "" <;> simp [strOptField, hs, lookupField, h]

/-- A conditional timezone field contributes nothing under a different key. -/
theorem lookupField_tzOptField_ne (k0 k : String) (v : Option String)
    (h : (k0 == k) = false) : lookupField (tzOptField k0 v) k = none := by
  cases v with
  | none => rfl
  | some s => by_cases hs : s = "" <;> simp [tzOptField, hs, lookupField, h]

/-- The conditional attendees field contributes nothing under another key. -/
theorem lookupField_attOptField_ne (k : String) (v : Option (List String))
    (h : (("attendees" : String) == k) = false) :
    lookupField (attOptField v) k = none := by
  cases v with
  | none => rfl
  | some l => cases l <;> simp [attOptField, lookupField, h]

/-- Lookup of a conditional string field under its own key. -/
theorem lookupField_strOptField_same (k0 : String) (v : Option String) :
    lookupField (strOptField k0 v) k0 =
      match v with
      | some s => if s == "" then none else some (.str s)
      | none => none := by
  cases v with
  | none => rfl
  | some s => by_cases hs : s = "" <;> simp [strOptField, hs, lookupField]

/-- Lookup of a conditional timezone field under its own key. -/
theorem lookupField_tzOptField_same (k0 : String) (v : Option String) :
    lookupField (tzOptField k0 v) k0 =
      match v with
      | some s =>
        if s == "" then none
        else some (.obj [("dateTime", .str s), ("timeZone", .str "Asia/Seoul")])
      | none => none := by
  cases v with
  | none => rfl
  | some s => by_cases hs : s = "" <;> simp [tzOptField, hs, lookupField]

/-- Lookup of the conditional attendees field under its own key. -/
theorem lookupField_attOptField_same (v : Option (List String)) :
    lookupField (attOptField v) "attendees" =
      match v with
      | some l =>
        if l.isEmpty then none
        else some (.arr (l.map fun em => .obj [("email", .str em)]))
      | none => none := by
  cases v with
  | none => rfl
  | some l => cases l <;> simp [attOptField, lookupField]

/-- C9: `create_event` always stamps `Asia/Seoul` on `start` and `end`, and
`update_event` stamps it on whichever of `start`/`end` is supplied truthy;
no parameter can change the timezone. -/
theorem event_timezone_fixed (summary start endv : String)
    (location description : Option String) (attendees : Option (List String))
    (us ul ud ustart uendv : Option String) (uatt : Option (List String)) :
    jLook (jLook (buildCreateEventBody summary start endv location description attendees)
        "start") "timeZone" = .str "Asia/Seoul" ∧
    jLook (jLook (buildCreateEventBody summary start endv location description attendees)
        "end") "timeZone" = .str "Asia/Seoul" ∧
    (optStrTruthy ustart = true →
      jLook (jLook (buildUpdateEventBody us ul ud ustart uendv uatt) "start")
        "timeZone" = .str "Asia/Seoul") ∧
    (optStrTruthy uendv = true →
      jLook (jLook (buildUpdateEventBody us ul ud ustart uendv uatt) "end")
        "timeZone" = .str "Asia/Seoul") := by
  refine ⟨rfl, rfl, ?_, ?_⟩
  · intro h
    cases ustart with
    | none => simp [optStrTruthy] at h
    | some s =>
      have hs : (s == "") = false := by simpa [optStrTruthy] using h
      simp [buildUpdateEventBody, jLook, lookupField_append,
        lookupField_strOptField_ne "summary" "start" us (by rfl),
        lookupField_strOptField_ne "location" "start" ul (by rfl),
        lookupField_strOptField_ne "description" "start" ud (by rfl),
        lookupField_tzOptField_same "start" (some s), hs, lookupField]
  · intro h
    cases uendv with
    | none => simp [optStrTruthy] at h
    | some s =>
      have hs : (s == "") = false := by simpa [optStrTruthy] using h
      simp [buildUpdateEventBody, jLook, lookupField_append,
        lookupField_strOptField_ne "summary" "end" us (by rfl),
        lookupField_strOptField_ne "location" "end" ul (by rfl),
        lookupField_strOptField_ne "description" "end" ud (by rfl),
        lookupField_tzOptField_ne "start" "end" ustart (by rfl),
        lookupField_tzOptField_same "end" (some s), hs, lookupField]

/-- Witness for C9 at concrete update parameters. -/
theorem event_timezone_fixed_witness :
    jLook (jLook (buildUpdateEventBody none none none (some "2024-01-01T10:00:00")
        (some "2024-01-01T11:00:00") none) "start") "timeZone" = .str "Asia/Seoul" ∧
    jLook (jLook (buildUpdateEventBody none none none (some "2024-01-01T10:00:00")
        (some "2024-01-01T11:00:00") none) "end") "timeZone" = .str "Asia/Seoul" :=
  ⟨(event_timezone_fixed "s" "a" "b" none none none none none none
      (some "2024-01-01T10:00:00") (some "2024-01-01T11:00:00") none).2.2.1 (by rfl),
   (event_timezone_fixed "s" "a" "b" none none none none none none
      (some "2024-01-01T10:00:00") (some "2024-01-01T11:00:00") none).2.2.2 (by rfl)⟩

/-- C10: the patch body of `update_event` binds exactly the optional
parameters supplied with truthy values (empty strings and empty lists are
omitted), and binds no other key, so an omitted key is never sent. -/
theorem update_event_body_truthy_params (us ul ud ustart uendv : Option String)
    (uatt : Option (List String)) :
    lookupField (objFields (buildUpdateEventBody us ul ud ustart uendv uatt)) "summary" =
      (match us with | some s => if s == "" then none else some (.str s) | none => none) ∧
    lookupField (objFields (buildUpdateEventBody us ul ud ustart uendv uatt)) "location" =
      (match ul with | some s => if s == "" then none else some (.str s) | none => none) ∧
    lookupField (objFields (buildUpdateEventBody us ul ud ustart uendv uatt)) "description" =
      (match ud with | some s => if s == "" then none else some (.str s) | none => none) ∧
    lookupField (objFields (buildUpdateEventBody us ul ud ustart uendv uatt)) "start" =
      (match ustart with
       | some s =>
         if s == "" then none
         else some (.obj [("dateTime", .str s), ("timeZone", .str "Asia/Seoul")])
       | none => none) ∧
    lookupField (objFields (buildUpdateEventBody us ul ud ustart uendv uatt)) "end" =
      (match uendv with
       | some s =>
         if s == "" then none
         else some (.obj [("dateTime", .str s), ("timeZone", .str "Asia/Seoul")])
       | none => none) ∧
    lookupField (objFields (buildUpdateEventBody us ul ud ustart uendv uatt)) "attendees" =
      (match uatt with
       | some l =>
         if l.isEmpty then none
         else some (.arr (l.map fun em => .obj [("email", .str em)]))
       | none => none) ∧
    ((objFields (buildUpdateEventBody us ul ud ustart uendv uatt)).all fun f =>
      f.1 == "summary" || f.1 == "location" || f.1 == "description" ||
        f.1 == "start" || f.1 == "end" || f.1 == "attendees") = true := by
  refine ⟨?_, ?_, ?_, ?_, ?_, ?_, ?_⟩
  · simp only [buildUpdateEventBody, objFields, lookupField_append,
      lookupField_strOptField_same "summary" us,
      lookupField_strOptField_ne "location" "summary" ul (by rfl),
      lookupField_strOptField_ne "description" "summary" ud (by rfl),
      lookupField_tzOptField_ne "start" "summary" ustart (by rfl),
      lookupField_tzOptField_ne "end" "summary" uendv (by rfl),
      lookupField_attOptField_ne "summary" uatt (by rfl)]
    cases us with
    | none => rfl
    | some s => by_cases hs : s = "" <;> simp [hs]
  · simp only [buildUpdateEventBody, objFields, lookupField_append,
      lookupField_strOptField_same "location" ul,
      lookupField_strOptField_ne "summary" "location" us (by rfl),
      lookupField_strOptField_ne "description" "location" ud (by rfl),
      lookupField_tzOptField_ne "start" "location" ustart (by rfl),
      lookupField_tzOptField_ne "end" "location" uendv (by rfl),
      lookupField_attOptField_ne "location" uatt (by rfl)]
    cases ul with
    | none => rfl
    | some s => by_cases hs : s = "" <;> simp [hs]
  · simp only [buildUpdateEventBody, objFields, lookupField_append,
      lookupField_strOptField_same "description" ud,
      lookupField_strOptField_ne "summary" "description" us (by rfl),
      lookupField_strOptField_ne "location" "description" ul (by rfl),
      lookupField_tzOptField_ne "start" "description" ustart (by rfl),
      lookupField_tzOptField_ne "end" "description" uendv (by rfl),
      lookupField_attOptField_ne "description" uatt (by rfl)]
    cases ud with
    | none => rfl
    | some s => by_cases hs : s = "" <;> simp [hs]
  · simp only [buildUpdateEventBody, objFields, lookupField_append,
      lookupField_tzOptField_same "start" ustart,
      lookupField_strOptField_ne "summary" "start" us (by rfl),
      lookupField_strOptField_ne "location" "start" ul (by rfl),
      lookupField_strOptField_ne "description" "start" ud (by rfl),
      lookupField_tzOptField_ne "end" "start" uendv (by rfl),
      lookupField_attOptField_ne "start" uatt (by rfl)]
    cases ustart with
    | none => rfl
    | some s => by_cases hs : s = "" <;> simp [hs]
  · simp only [buildUpdateEventBody, objFields, lookupField_append,
      lookupField_tzOptField_same "end" uendv,
      lookupField_strOptField_ne "summary" "end" us (by rfl),
      lookupField_strOptField_ne "location" "end" ul (by rfl),
      lookupField_strOptField_ne "description" "end" ud (by rfl),
      lookupField_tzOptField_ne "start" "end" ustart (by rfl),
      lookupField_attOptField_ne "end" uatt (by rfl)]
    cases uendv with
    | none => rfl
    | some s => by_cases hs : s = "" <;> simp [hs]
  · simp only [buildUpdateEventBody, objFields, lookupField_append,
      lookupField_attOptField_same uatt,
      lookupField_strOptField_ne "summary" "attendees" us (by rfl),
      lookupField_strOptField_ne "location" "attendees" ul (by rfl),
      lookupField_strOptField_ne "description" "attendees" ud (by rfl),
      lookupField_tzOptField_ne "start" "attendees" ustart (by rfl),
      lookupField_tzOptField_ne "end" "attendees" uendv (by rfl)]
  · simp only [buildUpdateEventBody, objFields, List.all_append, Bool.and_eq_true]
    refine ⟨⟨⟨⟨⟨?_, ?_⟩, ?_⟩, ?_⟩, ?_⟩, ?_⟩
    · cases us with
      | none => simp [strOptField]
      | some s => by_cases hs : s = "" <;> simp [strOptField, hs]
    · cases ul with
      | none => simp [strOptField]
      | some s => by_cases hs : s = "" <;> simp [strOptField, hs]
    · cases ud with
      | none => simp [strOptField]
      | some s => by_cases hs : s = "" <;> simp [strOptField, hs]
    · cases ustart with
      | none => simp [tzOptField]
      | some s => by_cases hs : s = "" <;> simp [tzOptField, hs]
    · cases uendv with
      | none => simp [tzOptField]
      | some s => by_cases hs : s = "" <;> simp [tzOptField, hs]
    · cases uatt with
      | none => simp [attOptField]
      | some l => cases l <;> simp [attOptField]

/-! ## Record-building lemmas (C4, C7) -/

/-- Subscripting a dictionary that binds the key returns the total lookup. -/
theorem pyIndex_hasKey (v : JVal) (k : String) (ho : isObjB v = true)
    (hk : hasKey v k = true) : pyIndex v k = .ok (jLook v k) := by
  cases v with
  | obj fs =>
    simp only [hasKey, objFields, Option.isSome_iff_exists] at hk
    obtain ⟨x, hx⟩ := hk
    simp [pyIndex, jLook, hx]
  | null => simp [isObjB] at ho
  | str s => simp [isObjB] at ho
  | num n => simp [isObjB] at ho
  | bool b => simp [isObjB] at ho
  | arr xs => simp [isObjB] at ho

/-- The total lookup of an absent key is `null`. -/
theorem jLook_absent (v : JVal) (k : String) (ho : isObjB v = true)
    (hk : hasKey v k = false) : jLook v k = .null := by
  cases v with
  | obj fs =>
    simp only [hasKey, objFields] at hk
    cases hlf : lookupField fs k with
    | none => simp [jLook, hlf]
    | some x => rw [hlf] at hk; simp at hk
  | null => simp [isObjB] at ho
  | str s => simp [isObjB] at ho
  | num n => simp [isObjB] at ho
  | bool b => simp [isObjB] at ho
  | arr xs => simp [isObjB] at ho

/-- On well-formed headers, the code-side scan agrees with the
`find?`-based specification extraction. -/
theorem nextHeader_eq_spec (hs : List JVal) (nm : String) (h : wfHeaders hs = true) :
    nextHeader hs nm = .ok (specHeaderVal hs nm) := by
  induction hs with
  | nil => rfl
  | cons hd tl ih =>
    simp only [wfHeaders, List.all_cons, Bool.and_eq_true] at h
    obtain ⟨⟨⟨hobj, hname⟩, hval⟩, htl⟩ := h
    have ihh := ih htl
    by_cases hm : jEqStr (jLook hd "name") nm = true
    · simp [nextHeader, pyIndex_hasKey hd "name" hobj hname, hm,
        pyIndex_hasKey hd "value" hobj hval, specHeaderVal, List.find?_cons]
    · rw [Bool.not_eq_true] at hm
      simp [nextHeader, pyIndex_hasKey hd "name" hobj hname, hm, specHeaderVal,
        List.find?_cons, ihh]

/-- One step of the `list_emails` loop on a well-formed detail: the record
built from the fetched detail is the specification record. -/
theorem buildEmailRecords_cons_wf (g : GmailService) (df : JVal → JVal)
    (hg : g.messagesGet = fun i => .ok (df i)) (idv : JVal) (rest : List JVal)
    (hwf : wfDetail (df idv) = true) :
    buildEmailRecords g (.obj [("id", idv)] :: rest) =
      match buildEmailRecords g rest with
      | .ok recs => .ok (specEmailRecord idv (df idv) :: recs)
      | .error e => .error e := by
  simp only [wfDetail, Bool.and_eq_true] at hwf
  obtain ⟨⟨⟨⟨hdobj, hdkey⟩, hpobj⟩, hhdrs⟩, hbody⟩ := hwf
  have hid : pyIndex (JVal.obj [("id", idv)]) "id" = .ok idv := by
    simp [pyIndex, lookupField]
  have hpay := pyIndex_hasKey (df idv) "payload" hdobj hdkey
  have hheaders := pyGetD_obj (jLook (df idv) "payload") "headers" (.arr []) hpobj
  cases hhv : jLookD (jLook (df idv) "payload") "headers" (.arr []) with
  | arr hs =>
    rw [hhv] at hhdrs hheaders
    have hwfh : wfHeaders hs = true := hhdrs
    cases hgb : get_email_body (jLook (df idv) "payload") with
    | error e => rw [hgb] at hbody; simp [isOkExc] at hbody
    | ok b =>
      simp only [buildEmailRecords, bind, Except.bind, hid, hg, hpay, hheaders,
        pyIter, nextHeader_eq_spec hs "Subject" hwfh,
        nextHeader_eq_spec hs "From" hwfh, nextHeader_eq_spec hs "Date" hwfh, hgb]
      cases hbr : buildEmailRecords g rest with
      | ok recs => simp [specEmailRecord, jArrList, hhv, hgb, exceptOr, pure, Except.pure]
      | error e => simp
  | null => rw [hhv] at hhdrs; simp at hhdrs
  | str s => rw [hhv] at hhdrs; simp at hhdrs
  | num n => rw [hhv] at hhdrs; simp at hhdrs
  | bool b => rw [hhv] at hhdrs; simp at hhdrs
  | obj fs => rw [hhv] at hhdrs; simp at hhdrs

/-- C4: on a canned remote response with exactly two message ids,
`list_emails` returns the two-element record sequence in order, each record
carrying that message's id, subject, from, date and extracted body from the
corresponding detail response. -/
theorem list_emails_two_messages (id1 id2 : JVal) (df : JVal → JVal)
    (maxResults : Int) (query : String)
    (h1 : wfDetail (df id1) = true) (h2 : wfDetail (df id2) = true) :
    list_emails (cannedGmail id1 id2 df) maxResults query =
      jsonDumps (.arr [specEmailRecord id1 (df id1), specEmailRecord id2 (df id2)]) := by
  unfold list_emails
  rw [show ((do
      let response ← (cannedGmail id1 id2 df).messagesList maxResults query
      let messagesv ← pyGetD response "messages" (.arr [])
      let messages ← pyIter messagesv
      buildEmailRecords (cannedGmail id1 id2 df) messages : Except String (List JVal))) =
    buildEmailRecords (cannedGmail id1 id2 df)
      [.obj [("id", id1)], .obj [("id", id2)]] from rfl]
  rw [buildEmailRecords_cons_wf (cannedGmail id1 id2 df) df rfl id1 _ h1]
  rw [buildEmailRecords_cons_wf (cannedGmail id1 id2 df) df rfl id2 [] h2]
  rfl

/-- Witness for C4 at a concrete two-message canned service. -/
theorem list_emails_two_messages_witness :
    list_emails (cannedGmail (.str "m1") (.str "m2") (fun _ => sampleDetail)) 10 "" =
      jsonDumps (.arr [specEmailRecord (.str "m1") sampleDetail,
                       specEmailRecord (.str "m2") sampleDetail]) :=
  list_emails_two_messages (.str "m1") (.str "m2") (fun _ => sampleDetail) 10 ""
    (by rfl) (by rfl)

/-- One step of the `search_emails` loop on a well-formed detail, keeping
the `labels` field from `detail.get("labelIds", [])`. -/
theorem buildSearchRecords_cons_wf (g : GmailService) (df : JVal → JVal)
    (hg : g.messagesGet = fun i => .ok (df i)) (idv : JVal) (rest : List JVal)
    (hwf : wfDetail (df idv) = true) :
    buildSearchRecords g (.obj [("id", idv)] :: rest) =
      match buildSearchRecords g rest with
      | .ok recs =>
        .ok (.obj [("id", idv),
          ("subject", specHeaderVal
            (jArrList (jLookD (jLook (df idv) "payload") "headers" (.arr []))) "Subject"),
          ("from", specHeaderVal
            (jArrList (jLookD (jLook (df idv) "payload") "headers" (.arr []))) "From"),
          ("date", specHeaderVal
            (jArrList (jLookD (jLook (df idv) "payload") "headers" (.arr []))) "Date"),
          ("body", .str (exceptOr (get_email_body (jLook (df idv) "payload")) "")),
          ("labels", jLookD (df idv) "labelIds" (.arr []))] :: recs)
      | .error e => .error e := by
  simp only [wfDetail, Bool.and_eq_true] at hwf
  obtain ⟨⟨⟨⟨hdobj, hdkey⟩, hpobj⟩, hhdrs⟩, hbody⟩ := hwf
  have hid : pyIndex (JVal.obj [("id", idv)]) "id" = .ok idv := by
    simp [pyIndex, lookupField]
  have hpay := pyIndex_hasKey (df idv) "payload" hdobj hdkey
  have hheaders := pyGetD_obj (jLook (df idv) "payload") "headers" (.arr []) hpobj
  have hlabels := pyGetD_obj (df idv) "labelIds" (.arr []) hdobj
  cases hhv : jLookD (jLook (df idv) "payload") "headers" (.arr []) with
  | arr hs =>
    rw [hhv] at hhdrs hheaders
    have hwfh : wfHeaders hs = true := hhdrs
    cases hgb : get_email_body (jLook (df idv) "payload") with
    | error e => rw [hgb] at hbody; simp [isOkExc] at hbody
    | ok b =>
      simp only [buildSearchRecords, bind, Except.bind, hid, hg, hpay, hheaders,
        pyIter, nextHeader_eq_spec hs "Subject" hwfh,
        nextHeader_eq_spec hs "From" hwfh, nextHeader_eq_spec hs "Date" hwfh,
        hgb, hlabels]
      cases hbr : buildSearchRecords g rest with
      | ok recs => simp [jArrList, hhv, hgb, exceptOr, pure, Except.pure]
      | error e => simp
  | null => rw [hhv] at hhdrs; simp at hhdrs
  | str s => rw [hhv] at hhdrs; simp at hhdrs
  | num n => rw [hhv] at hhdrs; simp at hhdrs
  | bool b => rw [hhv] at hhdrs; simp at hhdrs
  | obj fs => rw [hhv] at hhdrs; simp at hhdrs

/-- The total lookup with default returns the default for an absent key. -/
theorem jLookD_absent (v : JVal) (k : String) (d : JVal) (ho : isObjB v = true)
    (hk : hasKey v k = false) : jLookD v k d = d := by
  cases v with
  | obj fs =>
    simp only [hasKey, objFields] at hk
    cases hlf : lookupField fs k with
    | none => simp [jLookD, hlf]
    | some x => rw [hlf] at hk; simp at hk
  | null => simp [isObjB] at ho
  | str s => simp [isObjB] at ho
  | num n => simp [isObjB] at ho
  | bool b => simp [isObjB] at ho
  | arr xs => simp [isObjB] at ho

/-- C7: a header absent from a well-formed header list yields the empty
string; an absent `labelIds` yields the empty list in the `search_emails`
record; absent optional event fields yield `null` in the `list_events`
record. -/
theorem absent_fields_defaults
    (hs : List JVal) (nm : String) (g : GmailService) (df : JVal → JVal)
    (idv : JVal) (event : JVal)
    (hwfh : wfHeaders hs = true)
    (hfind : hs.find? (fun h => jEqStr (jLook h "name") nm) = none)
    (hg : g.messagesGet = fun i => .ok (df i))
    (hwfd : wfDetail (df idv) = true)
    (hlab : hasKey (df idv) "labelIds" = false)
    (hev : isObjB event = true) (hevid : hasKey event "id" = true)
    (hsum : hasKey event "summary" = false)
    (hloc : hasKey event "location" = false) :
    nextHeader hs nm = .ok (.str "") ∧
    buildSearchRecords g [.obj [("id", idv)]] =
      .ok [.obj [("id", idv),
        ("subject", specHeaderVal
          (jArrList (jLookD (jLook (df idv) "payload") "headers" (.arr []))) "Subject"),
        ("from", specHeaderVal
          (jArrList (jLookD (jLook (df idv) "payload") "headers" (.arr []))) "From"),
        ("date", specHeaderVal
          (jArrList (jLookD (jLook (df idv) "payload") "headers" (.arr []))) "Date"),
        ("body", .str (exceptOr (get_email_body (jLook (df idv) "payload")) "")),
        ("labels", .arr [])]] ∧
    buildEventRecords [event] =
      .ok [.obj [("id", jLook event "id"), ("summary", .null),
                 ("start", jLook event "start"), ("end", jLook event "end"),
                 ("location", .null)]] := by
  refine ⟨?_, ?_, ?_⟩
  · rw [nextHeader_eq_spec hs nm hwfh]
    simp [specHeaderVal, hfind]
  · have hobj : isObjB (df idv) = true := by
      simp only [wfDetail, Bool.and_eq_true] at hwfd
      exact hwfd.1.1.1.1
    rw [buildSearchRecords_cons_wf g df hg idv [] hwfd]
    rw [jLookD_absent (df idv) "labelIds" (.arr []) hobj hlab]
    rfl
  · simp only [buildEventRecords, bind, Except.bind,
      pyIndex_hasKey event "id" hev hevid,
      pyGet_obj event "summary" hev, pyGet_obj event "start" hev,
      pyGet_obj event "end" hev, pyGet_obj event "location" hev,
      jLook_absent event "summary" hev hsum, jLook_absent event "location" hev hloc]
    rfl

/-- Witness for C7 at concrete inputs with the respective fields absent. -/
theorem absent_fields_defaults_witness :
    nextHeader [.obj [("name", .str "From"), ("value", .str "x@y")]] "Subject" =
      .ok (.str "") ∧
    buildSearchRecords (getOnlyGmail fun _ => sampleDetail) [.obj [("id", .str "m1")]] =
      .ok [.obj [("id", .str "m1"),
        ("subject", specHeaderVal
          (jArrList (jLookD (jLook sampleDetail "payload") "headers" (.arr []))) "Subject"),
        ("from", specHeaderVal
          (jArrList (jLookD (jLook sampleDetail "payload") "headers" (.arr []))) "From"),
        ("date", specHeaderVal
          (jArrList (jLookD (jLook sampleDetail "payload") "headers" (.arr []))) "Date"),
        ("body", .str (exceptOr (get_email_body (jLook sampleDetail "payload")) "")),
        ("labels", .arr [])]] ∧
    buildEventRecords [.obj [("id", .str "e1"), ("start", .str "2024-01-01")]] =
      .ok [.obj [("id", jLook (.obj [("id", .str "e1"), ("start", .str "2024-01-01")]) "id"),
                 ("summary", .null),
                 ("start", jLook (.obj [("id", .str "e1"), ("start", .str "2024-01-01")]) "start"),
                 ("end", jLook (.obj [("id", .str "e1"), ("start", .str "2024-01-01")]) "end"),
                 ("location", .null)]] :=
  absent_fields_defaults [.obj [("name", .str "From"), ("value", .str "x@y")]] "Subject"
    (getOnlyGmail fun _ => sampleDetail) (fun _ => sampleDetail) (.str "m1")
    (.obj [("id", .str "e1"), ("start", .str "2024-01-01")])
    (by rfl) (by rfl) (by rfl) (by rfl) (by rfl) (by rfl) (by rfl) (by rfl) (by rfl)
